import Mathlib

/-!
Shallow embedding of the secret-santa-bot game-state and pairing store:
the pairing generator (`src/utils.py`), the in-memory backend
(`src/stores/memory_store.py`), the snapshot backend
(`src/stores/pickle_store.py`), the relational backend and its schema
manager (`src/stores/sqlite_store.py`).

Python dicts and defaultdicts are embedded as association lists,
Python sets as duplicate-free lists maintained by a guarded insert,
SQL tables as lists of row structures.  Operations that can raise a
Python exception return an `Option StoreErr` alongside the resulting
state, so that partially-applied mutations at the moment an exception
is raised are representable.
-/

namespace SecretSanta

abbrev UserId := Nat
abbrev GroupId := Int
abbrev PollId := String
abbrev MessageId := Nat

/-- Embeds `models/game.py`: a frozen dataclass with fields `name`, `group_id`. -/
structure Game where
  name : String
  group_id : GroupId
deriving DecidableEq, Repr

/-- Embeds `models/group.py`: a frozen dataclass with fields `id`, `name`. -/
structure Group where
  id : GroupId
  name : String
deriving DecidableEq, Repr

/-- Python exceptions that the store code can raise. -/
inductive StoreErr where
  | keyError        -- dict / bidict / set lookup misses
  | assertError     -- a failed `assert`
  | valueError      -- bidict value duplication
  | integrityError  -- SQL uniqueness-constraint violation
  | typeError       -- subscripting `None`
deriving DecidableEq, Repr

section AssocHelpers

variable {K V : Type} [DecidableEq K]

/-- Lookup with a default value: embeds `defaultdict` subscripting. -/
def lookupD (m : List (K × V)) (k : K) (d : V) : V :=
  match m with
  | [] => d
  | (k', v) :: rest => if k = k' then v else lookupD rest k d

/-- Lookup returning `none` on a miss: embeds `k in d` / `d[k]` on a plain dict. -/
def dictFind (m : List (K × V)) (k : K) : Option V :=
  match m with
  | [] => none
  | (k', v) :: rest => if k = k' then some v else dictFind rest k

/-- Embeds `d[k] = v` on a dict: overwrite the binding if present, else append. -/
def dictInsert (m : List (K × V)) (k : K) (v : V) : List (K × V) :=
  match m with
  | [] => [(k, v)]
  | (k', v') :: rest => if k = k' then (k', v) :: rest else (k', v') :: dictInsert rest k v

/-- Embeds Python `set.add`: no-op when the element is already present. -/
def setAdd [DecidableEq V] (l : List V) (v : V) : List V :=
  if v ∈ l then l else l ++ [v]

/-- Embeds Python `set.remove`s effect (the caller checks membership separately). -/
def setDel [DecidableEq V] (l : List V) (v : V) : List V :=
  l.filter (fun x => x ≠ v)

/-- Embeds `defaultdict(set)` mutation `m[k].add(v)`. -/
def dictSetAdd [DecidableEq V] (m : List (K × List V)) (k : K) (v : V) : List (K × List V) :=
  match m with
  | [] => [(k, [v])]
  | (k', vs) :: rest =>
      if k = k' then (k', setAdd vs v) :: rest else (k', vs) :: dictSetAdd rest k v

/-- Embeds `defaultdict(set)` mutation `m[k].remove(v)` after a membership check. -/
def dictSetDel [DecidableEq V] (m : List (K × List V)) (k : K) (v : V) : List (K × List V) :=
  match m with
  | [] => []
  | (k', vs) :: rest =>
      if k = k' then (k', setDel vs v) :: rest else (k', vs) :: dictSetDel rest k v

end AssocHelpers

/-- Embeds `utils.shuffle_pair` applied to an already-shuffled list: the dict
comprehension pairing `items[i]` with `items[(i + 1) % len(items)]` for each
index `i`, kept as the association list of its entries in comprehension order.
`random.shuffle` itself is modelled by quantifying theorems over every
permutation of the input list. -/
def shuffle_pair {T : Type} (items : List T) : List (T × T) :=
  (List.finRange items.length).map fun i =>
    (items.get i, items.get ⟨(i.val + 1) % items.length, Nat.mod_lt _ i.pos⟩)

theorem shuffle_pair_map_fst {T : Type} (l : List T) :
    (shuffle_pair l).map Prod.fst = l := by
  simp only [shuffle_pair, List.map_map]
  rw [← List.ofFn_eq_map]
  exact List.ofFn_get l

theorem shuffle_pair_map_snd {T : Type} (l : List T) :
    (shuffle_pair l).map Prod.snd = l.rotate 1 := by
  simp only [shuffle_pair, List.map_map]
  rw [← List.ofFn_eq_map]
  apply List.ext_get
  · simp [List.length_ofFn]
  · intro i h1 h2
    simp only [List.get_ofFn, Function.comp_apply]
    rw [List.get_rotate]
    simp

/-- Embeds the pairing dict passed to `save_pairings`: an association list
whose entry order is the dict's insertion order. -/
abbrev Pairings := List (UserId × UserId)

/-- Embeds the state of `stores/memory_store.py` `MemoryStore`: its six
indexed collections.  `defaultdict(set)` fields are association lists to
duplicate-free lists, the `bidict` is an association list queried from
either side, plain dicts are association lists. -/
structure MemoryStore where
  group_games : List (GroupId × List Game)
  user_games : List (UserId × List Game)
  game_users : List (Game × List UserId)
  pairings : List (Game × Pairings)
  polls : List (Game × PollId)
  leaders : List (Game × UserId)
deriving DecidableEq, Repr

/-- Embeds `MemoryStore.__init__`: every collection starts empty. -/
def MemoryStore.empty : MemoryStore :=
  ⟨[], [], [], [], [], []⟩

/-- Embeds `MemoryStore.get_game`: `self.__polls.inverse[poll_id]`, raising
`KeyError` when no game is mapped to `poll_id`. -/
def MemoryStore.get_game (s : MemoryStore) (poll_id : PollId) : Except StoreErr Game :=
  match s.polls.find? (fun gp => gp.2 = poll_id) with
  | some gp => .ok gp.1
  | none => .error .keyError

/-- Embeds `MemoryStore.get_leader`: `get_game` then a dict lookup that
raises `KeyError` on a miss. -/
def MemoryStore.get_leader (s : MemoryStore) (poll_id : PollId) : Except StoreErr UserId :=
  match s.get_game poll_id with
  | .error e => .error e
  | .ok game =>
      match dictFind s.leaders game with
      | some l => .ok l
      | none => .error .keyError

/-- Embeds `MemoryStore.game_exists`: membership of `Game(game_name, group.id)`
in `self.__group_games[group.id]`. -/
def MemoryStore.game_exists (s : MemoryStore) (game_name : String) (group : Group) : Bool :=
  decide (Game.mk game_name group.id ∈ lookupD s.group_games group.id [])

/-- Embeds `MemoryStore.create_game`: assert the game does not exist, add it
to the group index, then bind the poll id in the bidict (which raises on a
duplicate poll id, after the group index was already mutated) and record the
leader. -/
def MemoryStore.create_game (s : MemoryStore) (game_name : String) (group : Group)
    (poll_id : PollId) (leader_id : UserId) : Option StoreErr × MemoryStore :=
  if s.game_exists game_name group then (some .assertError, s)
  else
    let g := Game.mk game_name group.id
    let s1 := { s with group_games := dictSetAdd s.group_games group.id g }
    if s1.polls.any (fun gp => gp.2 = poll_id ∧ gp.1 ≠ g) then (some .valueError, s1)
    else (none, { s1 with
                  polls := dictInsert s1.polls g poll_id,
                  leaders := dictInsert s1.leaders g leader_id })

/-- Embeds `MemoryStore.save_pairings`: three `assert` statements (the second
one a chained set-equality comparison) followed by the dict assignment
`self.__pairings[game] = pairings`.  The commented-out no-self-pairing assert
in the source is, faithfully, not modelled. -/
def MemoryStore.save_pairings (s : MemoryStore) (poll_id : PollId) (pairings : Pairings) :
    Option StoreErr × MemoryStore :=
  match s.get_game poll_id with
  | .error e => (some e, s)
  | .ok game =>
      if ¬ game ∈ lookupD s.group_games game.group_id [] then (some .assertError, s)
      else if ¬ ((pairings.map Prod.fst).toFinset = (pairings.map Prod.snd).toFinset ∧
                 (pairings.map Prod.snd).toFinset = (lookupD s.game_users game []).toFinset) then
        (some .assertError, s)
      else if ¬ (∀ u ∈ lookupD s.game_users game [], game ∈ lookupD s.user_games u []) then
        (some .assertError, s)
      else (none, { s with pairings := dictInsert s.pairings game pairings })

/-- Embeds `MemoryStore.get_users`: `get_game` then `list(self.__game_users[game])`. -/
def MemoryStore.get_users (s : MemoryStore) (poll_id : PollId) : Except StoreErr (List UserId) :=
  match s.get_game poll_id with
  | .error e => .error e
  | .ok game => .ok (lookupD s.game_users game [])

/-- Embeds `MemoryStore.get_pairings`: the comprehension over
`self.__user_games[user_id]` keeping games whose pairing dict has `user_id`
as a key, paired with the recipient. -/
def MemoryStore.get_pairings (s : MemoryStore) (user_id : UserId) : List (Game × UserId) :=
  (lookupD s.user_games user_id []).filterMap fun game =>
    (dictFind (lookupD s.pairings game []) user_id).map (fun r => (game, r))

/-- Embeds `MemoryStore.get_game_pairings`: `None` when the game has no
entry in `self.__pairings`, the stored dict otherwise. -/
def MemoryStore.get_game_pairings (s : MemoryStore) (poll_id : PollId) :
    Except StoreErr (Option Pairings) :=
  match s.get_game poll_id with
  | .error e => .error e
  | .ok game => .ok (dictFind s.pairings game)

/-- Embeds `MemoryStore.add_user_to_game`: `get_game`, then two set adds. -/
def MemoryStore.add_user_to_game (s : MemoryStore) (user_id : UserId) (poll_id : PollId) :
    Option StoreErr × MemoryStore :=
  match s.get_game poll_id with
  | .error e => (some e, s)
  | .ok game =>
      (none, { s with
               game_users := dictSetAdd s.game_users game user_id,
               user_games := dictSetAdd s.user_games user_id game })

/-- Embeds `MemoryStore.remove_user_from_game`: `get_game`, then
`self.__game_users[game].remove(user_id)` (raising `KeyError` on a
non-member before any mutation) followed by
`self.__user_games[user_id].remove(game)` (raising `KeyError` after the
first removal already happened). -/
def MemoryStore.remove_user_from_game (s : MemoryStore) (user_id : UserId) (poll_id : PollId) :
    Option StoreErr × MemoryStore :=
  match s.get_game poll_id with
  | .error e => (some e, s)
  | .ok game =>
      if user_id ∈ lookupD s.game_users game [] then
        let s1 := { s with game_users := dictSetDel s.game_users game user_id }
        if game ∈ lookupD s1.user_games user_id [] then
          (none, { s1 with user_games := dictSetDel s1.user_games user_id game })
        else (some .keyError, s1)
      else (some .keyError, s)

/-! Relational backend, `stores/sqlite_store.py`. -/

/-- Embeds a row of the `game` table (the `created_at` timestamp column,
which no store operation reads, is not modelled). -/
structure GameRow where
  poll_id : PollId
  name : String
  group_id : GroupId
  leader_id : UserId
deriving DecidableEq, Repr

/-- Embeds a row of the `pairing` table. -/
structure PairingRow where
  poll_id : PollId
  reshuffle : Nat
  santa_id : UserId
  recipient_id : UserId
deriving DecidableEq, Repr

/-- Embeds the tables of the sqlite database that the claims touch:
`game`, `participant` (a bag of `(game_id, user_id)` rows with no
uniqueness constraint), and `pairing`. -/
structure SqliteDB where
  game : List GameRow
  participant : List (PollId × UserId)
  pairing : List PairingRow
deriving DecidableEq, Repr

def SqliteDB.empty : SqliteDB := ⟨[], [], []⟩

/-- Embeds `COALESCE(MAX(reshuffle), 0)` over the `pairing` rows of one poll. -/
def maxReshuffle (rows : List PairingRow) (poll_id : PollId) : Nat :=
  ((rows.filter (fun r => r.poll_id = poll_id)).map PairingRow.reshuffle).foldr max 0

/-- Decides whether inserting row `r` violates one of the two uniqueness
constraints `UNIQUE (poll_id, reshuffle, santa_id)` and
`UNIQUE (poll_id, reshuffle, recipient_id)` against an existing row `r0`. -/
def rowConflict (r0 r : PairingRow) : Bool :=
  r0.poll_id = r.poll_id ∧ r0.reshuffle = r.reshuffle ∧
    (r0.santa_id = r.santa_id ∨ r0.recipient_id = r.recipient_id)

/-- Embeds `executemany` of the pairing INSERT: rows are checked one by one
against the table as extended so far; any violation aborts the batch. -/
def batchConflict (rows : List PairingRow) : List PairingRow → Bool
  | [] => false
  | r :: rest => rows.any (rowConflict · r) || batchConflict (rows ++ [r]) rest

/-- Embeds `SqliteStore.create_game`: the INSERT into `game`, failing on the
`poll_id` primary key or the `UNIQUE (name, group_id)` constraint. -/
def SqliteDB.create_game (db : SqliteDB) (game_name : String) (group : Group)
    (poll_id : PollId) (leader_id : UserId) : Option StoreErr × SqliteDB :=
  if db.game.any (fun r => r.poll_id = poll_id) ∨
     db.game.any (fun r => r.name = game_name ∧ r.group_id = group.id) then
    (some .integrityError, db)
  else (none, { db with game := db.game ++ [⟨poll_id, game_name, group.id, leader_id⟩] })

/-- Embeds `SqliteStore.get_game`: the first `game` row with this poll id,
or `None`. -/
def SqliteDB.get_game (db : SqliteDB) (poll_id : PollId) : Option Game :=
  (db.game.find? (fun r => r.poll_id = poll_id)).map (fun r => Game.mk r.name r.group_id)

/-- Embeds `SqliteStore.get_leader`: `data[0]` raises `TypeError` when the
query returned no row. -/
def SqliteDB.get_leader (db : SqliteDB) (poll_id : PollId) : Except StoreErr UserId :=
  match db.game.find? (fun r => r.poll_id = poll_id) with
  | some r => .ok r.leader_id
  | none => .error .typeError

/-- Embeds `SqliteStore.game_exists`. -/
def SqliteDB.game_exists (db : SqliteDB) (game_name : String) (group : Group) : Bool :=
  db.game.any (fun r => r.name = game_name ∧ r.group_id = group.id)

/-- Embeds `SqliteStore.save_pairings`: read `COALESCE(MAX(reshuffle), 0)`
for the poll, then insert every pair at generation `max + 1`; a
uniqueness-constraint violation rolls the whole transaction back.  No
validation against the `participant` table is performed. -/
def SqliteDB.save_pairings (db : SqliteDB) (poll_id : PollId) (pairings : Pairings) :
    Option StoreErr × SqliteDB :=
  let gen := maxReshuffle db.pairing poll_id + 1
  let batch := pairings.map (fun pr => PairingRow.mk poll_id gen pr.1 pr.2)
  if batchConflict db.pairing batch then (some .integrityError, db)
  else (none, { db with pairing := db.pairing ++ batch })

/-- Embeds `SqliteStore.get_users`: the `user_id` column of the
`participant` rows of this poll, duplicates included. -/
def SqliteDB.get_users (db : SqliteDB) (poll_id : PollId) : List UserId :=
  (db.participant.filter (fun pr => pr.1 = poll_id)).map Prod.snd

/-- Embeds `SqliteStore.get_pairings`: the rows whose `santa_id` is the user
and whose `reshuffle` is the per-poll maximum, inner-joined with `game`. -/
def SqliteDB.get_pairings (db : SqliteDB) (user_id : UserId) : List (Game × UserId) :=
  (db.pairing.filter
      (fun r => r.santa_id = user_id ∧ r.reshuffle = maxReshuffle db.pairing r.poll_id)).filterMap
    fun r => (db.game.find? (fun gr => gr.poll_id = r.poll_id)).map
      (fun gr => (Game.mk gr.name gr.group_id, r.recipient_id))

/-- Embeds `SqliteStore.get_game_pairings`: the rows of this poll at the
per-poll maximum generation; `None` when the query is empty. -/
def SqliteDB.get_game_pairings (db : SqliteDB) (poll_id : PollId) : Option Pairings :=
  let rows := db.pairing.filter
    (fun r => r.poll_id = poll_id ∧ r.reshuffle = maxReshuffle db.pairing poll_id)
  if rows.isEmpty then none
  else some (rows.map (fun r => (r.santa_id, r.recipient_id)))

/-- Embeds `SqliteStore.add_user_to_game`: an unconditional INSERT into
`participant`. -/
def SqliteDB.add_user_to_game (db : SqliteDB) (user_id : UserId) (poll_id : PollId) : SqliteDB :=
  { db with participant := db.participant ++ [(poll_id, user_id)] }

/-- Embeds `SqliteStore.remove_user_from_game`: DELETE of every matching
`participant` row. -/
def SqliteDB.remove_user_from_game (db : SqliteDB) (user_id : UserId) (poll_id : PollId) :
    SqliteDB :=
  { db with participant := db.participant.filter (fun pr => ¬ (pr.1 = poll_id ∧ pr.2 = user_id)) }

/-! Schema manager, `SchemaManager` in `stores/sqlite_store.py`. -/

/-- Embeds the observable effect of the schema DDL: the stored
`PRAGMA user_version` integer, the set of created tables, and a trace of the
migration steps that were executed, in execution order. -/
structure SqliteSchema where
  user_version : Nat
  tables : List String
  applied : List Nat
deriving DecidableEq, Repr

/-- Embeds `SchemaManager.__upgrade_schema_1`: create `game`, `participant`
and `pairing`, then `PRAGMA user_version = 1` as the last statement. -/
def upgrade_schema_1 (s : SqliteSchema) : SqliteSchema :=
  { user_version := 1,
    tables := s.tables ++ ["game", "participant", "pairing"],
    applied := s.applied ++ [1] }

/-- Embeds `SchemaManager.__upgrade_schema_2`: create `wishlist` and
`wishlist_item`, then `PRAGMA user_version = 2`. -/
def upgrade_schema_2 (s : SqliteSchema) : SqliteSchema :=
  { user_version := 2,
    tables := s.tables ++ ["wishlist", "wishlist_item"],
    applied := s.applied ++ [2] }

/-- Embeds `SchemaManager.__upgrade_schema_3`: create `user`, then
`PRAGMA user_version = 3`. -/
def upgrade_schema_3 (s : SqliteSchema) : SqliteSchema :=
  { user_version := 3,
    tables := s.tables ++ ["user"],
    applied := s.applied ++ [3] }

/-- Embeds the `upgrade_functions` list of `set_up_schema`. -/
def upgrade_functions : List (SqliteSchema → SqliteSchema) :=
  [upgrade_schema_1, upgrade_schema_2, upgrade_schema_3]

/-- Embeds `SchemaManager.set_up_schema`: read the stored version and run
`upgrade_functions[current_version:]` in order. -/
def set_up_schema (s : SqliteSchema) : SqliteSchema :=
  (upgrade_functions.drop s.user_version).foldl (fun st f => f st) s

/-! Snapshot backend, `stores/pickle_store.py`.  `PickleStore` subclasses
`MemoryStore` without overriding any store operation, adding whole-object
`pickle.dump` / `pickle.load` of the store.  The pickle wire format is
embedded as a tree of primitive values, with an encoder from the store
state and a decoder back. -/

/-- Embeds a pickled value: the fragment of the pickle data model the store
state needs (integers, strings, tuples, lists). -/
inductive PickleVal where
  | nat : Nat → PickleVal
  | int : Int → PickleVal
  | str : String → PickleVal
  | pair : PickleVal → PickleVal → PickleVal
  | list : List PickleVal → PickleVal

namespace Pickle

def encNat (n : Nat) : PickleVal := .nat n
def encInt (i : Int) : PickleVal := .int i
def encStr (s : String) : PickleVal := .str s
def encGame (g : Game) : PickleVal := .pair (.str g.name) (.int g.group_id)
def encProd {α β : Type} (f : α → PickleVal) (g : β → PickleVal) (p : α × β) : PickleVal :=
  .pair (f p.1) (g p.2)
def encList {α : Type} (f : α → PickleVal) (l : List α) : PickleVal :=
  .list (l.map f)

def decNat : PickleVal → Option Nat
  | .nat n => some n
  | _ => none

def decInt : PickleVal → Option Int
  | .int i => some i
  | _ => none

def decStr : PickleVal → Option String
  | .str s => some s
  | _ => none

def decGame : PickleVal → Option Game
  | .pair (.str n) (.int g) => some (Game.mk n g)
  | _ => none

def decProd {α β : Type} (f : PickleVal → Option α) (g : PickleVal → Option β) :
    PickleVal → Option (α × β)
  | .pair a b =>
      match f a, g b with
      | some x, some y => some (x, y)
      | _, _ => none
  | _ => none

def decList {α : Type} (f : PickleVal → Option α) : PickleVal → Option (List α)
  | .list vs => vs.mapM f
  | _ => none

/-- Embeds `pickle.dump` of a `PickleStore`: the six collections of the
underlying `MemoryStore` state, serialized field by field. -/
def pickle (s : MemoryStore) : PickleVal :=
  .list [encList (encProd encInt (encList encGame)) s.group_games,
         encList (encProd encNat (encList encGame)) s.user_games,
         encList (encProd encGame (encList encNat)) s.game_users,
         encList (encProd encGame (encList (encProd encNat encNat))) s.pairings,
         encList (encProd encGame encStr) s.polls,
         encList (encProd encGame encNat) s.leaders]

/-- Embeds `pickle.load`: rebuild the store state from the serialized value,
failing on a malformed snapshot. -/
def unpickle (v : PickleVal) : Option MemoryStore :=
  match v with
  | .list [v1, v2, v3, v4, v5, v6] =>
      match decList (decProd decInt (decList decGame)) v1,
            decList (decProd decNat (decList decGame)) v2,
            decList (decProd decGame (decList decNat)) v3,
            decList (decProd decGame (decList (decProd decNat decNat))) v4,
            decList (decProd decGame decStr) v5,
            decList (decProd decGame decNat) v6 with
      | some f1, some f2, some f3, some f4, some f5, some f6 =>
          some ⟨f1, f2, f3, f4, f5, f6⟩
      | _, _, _, _, _, _ => none
  | _ => none

end Pickle

/-- Embeds `PickleStore.create`: when a snapshot file exists, `pickle.load`
its content; otherwise construct a fresh `PickleStore`, whose
`MemoryStore.__init__` makes every collection empty. -/
def PickleStore.create (file : Option PickleVal) : Option MemoryStore :=
  match file with
  | some v => Pickle.unpickle v
  | none => some MemoryStore.empty

/-- Embeds the state of a `PickleStore`: the inherited `MemoryStore`
collections plus the snapshot file path (which no store operation reads). -/
structure PickleStore where
  mem : MemoryStore
  pickle_file_path : String
deriving DecidableEq, Repr

/-- Embeds `PickleStore.get_game`, inherited unchanged from `MemoryStore`. -/
def PickleStore.get_game (s : PickleStore) (poll_id : PollId) : Except StoreErr Game :=
  s.mem.get_game poll_id

/-- Embeds `PickleStore.get_users`, inherited unchanged from `MemoryStore`. -/
def PickleStore.get_users (s : PickleStore) (poll_id : PollId) : Except StoreErr (List UserId) :=
  s.mem.get_users poll_id

/-- Embeds `PickleStore.get_pairings`, inherited unchanged from `MemoryStore`. -/
def PickleStore.get_pairings (s : PickleStore) (user_id : UserId) : List (Game × UserId) :=
  s.mem.get_pairings user_id

/-- Embeds `PickleStore.get_game_pairings`, inherited unchanged from
`MemoryStore`. -/
def PickleStore.get_game_pairings (s : PickleStore) (poll_id : PollId) :
    Except StoreErr (Option Pairings) :=
  s.mem.get_game_pairings poll_id

/-- Embeds `PickleStore.add_user_to_game`, inherited unchanged from
`MemoryStore`. -/
def PickleStore.add_user_to_game (s : PickleStore) (user_id : UserId) (poll_id : PollId) :
    Option StoreErr × PickleStore :=
  let r := s.mem.add_user_to_game user_id poll_id
  (r.1, { s with mem := r.2 })

/-- Embeds `PickleStore.remove_user_from_game`, inherited unchanged from
`MemoryStore`. -/
def PickleStore.remove_user_from_game (s : PickleStore) (user_id : UserId) (poll_id : PollId) :
    Option StoreErr × PickleStore :=
  let r := s.mem.remove_user_from_game user_id poll_id
  (r.1, { s with mem := r.2 })

/-- Embeds `PickleStore.save_pairings`, inherited unchanged from
`MemoryStore`. -/
def PickleStore.save_pairings (s : PickleStore) (poll_id : PollId) (pairings : Pairings) :
    Option StoreErr × PickleStore :=
  let r := s.mem.save_pairings poll_id pairings
  (r.1, { s with mem := r.2 })

/-! Theorems. -/

theorem shuffle_pair_no_fixed_point {T : Type} (l : List T) (hnd : l.Nodup)
    (hlen : 2 ≤ l.length) : ∀ p ∈ shuffle_pair l, p.1 ≠ p.2 := by
  intro p hp
  simp only [shuffle_pair, List.mem_map, List.mem_finRange, true_and] at hp
  obtain ⟨i, hp⟩ := hp
  subst hp
  intro h
  have hv : i = (⟨(i.val + 1) % l.length, Nat.mod_lt _ i.pos⟩ : Fin l.length) :=
    (hnd.get_inj_iff).mp h
  have hv' : i.val = (i.val + 1) % l.length := congrArg Fin.val hv
  rcases Nat.lt_or_ge (i.val + 1) l.length with hlt | hge
  · rw [Nat.mod_eq_of_lt hlt] at hv'
    omega
  · have hn : i.val + 1 = l.length := le_antisymm i.isLt hge
    rw [hn, Nat.mod_self] at hv'
    omega

/-- C1: for every input list of at least 2 distinct participants and every
shuffled order of it, `shuffle_pair` returns a mapping whose key list and
value list are each duplicate-free (a bijection), whose domain and range
both equal the input set, which has no fixed point, and whose entry at
index `i` pairs the shuffled element `i` with the shuffled element
`(i + 1) mod n` (a single cyclic permutation). -/
theorem shuffle_pair_derangement (items shuffled : List UserId)
    (hperm : shuffled.Perm items) (hnd : items.Nodup) (hlen : 2 ≤ items.length) :
    ((shuffle_pair shuffled).map Prod.fst).toFinset = items.toFinset ∧
    ((shuffle_pair shuffled).map Prod.snd).toFinset = items.toFinset ∧
    ((shuffle_pair shuffled).map Prod.fst).Nodup ∧
    ((shuffle_pair shuffled).map Prod.snd).Nodup ∧
    (∀ p ∈ shuffle_pair shuffled, p.1 ≠ p.2) ∧
    (∀ i : Fin shuffled.length,
      (shuffle_pair shuffled)[i.val]? =
        some (shuffled.get i,
              shuffled.get ⟨(i.val + 1) % shuffled.length, Nat.mod_lt _ i.pos⟩)) := by
  have hnds : shuffled.Nodup := (hperm.nodup_iff).mpr hnd
  have hlens : 2 ≤ shuffled.length := hperm.length_eq ▸ hlen
  refine ⟨?_, ?_, ?_, ?_, ?_, ?_⟩
  · rw [shuffle_pair_map_fst]
    exact List.toFinset_eq_of_perm _ _ hperm
  · rw [shuffle_pair_map_snd]
    exact List.toFinset_eq_of_perm _ _ ((shuffled.rotate_perm 1).trans hperm)
  · rw [shuffle_pair_map_fst]
    exact hnds
  · rw [shuffle_pair_map_snd]
    exact List.nodup_rotate.mpr hnds
  · exact shuffle_pair_no_fixed_point shuffled hnds hlens
  · intro i
    have hfr : (List.finRange shuffled.length)[i.val]? = some i := by
      rw [List.getElem?_eq_getElem (by simp)]
      simp
    simp only [shuffle_pair, List.getElem?_map, hfr, Option.map_some']

theorem shuffle_pair_derangement_witness :
    ((shuffle_pair [20, 10]).map Prod.fst).toFinset = ([10, 20] : List UserId).toFinset :=
  (shuffle_pair_derangement [10, 20] [20, 10] (by decide) (by decide) (by decide)).1

theorem set_up_schema_applied (v : Nat) (tables : List String) (applied : List Nat) :
    (set_up_schema ⟨v, tables, applied⟩).applied
      = applied ++ ([1, 2, 3] : List Nat).filter (fun k => v < k) := by
  match v with
  | 0 =>
    have hf : ([1, 2, 3] : List Nat).filter (fun k => 0 < k) = [1, 2, 3] := by decide
    simp [set_up_schema, upgrade_functions, upgrade_schema_1, upgrade_schema_2,
          upgrade_schema_3, hf]
  | 1 =>
    have hf : ([1, 2, 3] : List Nat).filter (fun k => 1 < k) = [2, 3] := by decide
    simp [set_up_schema, upgrade_functions, upgrade_schema_2, upgrade_schema_3, hf]
  | 2 =>
    have hf : ([1, 2, 3] : List Nat).filter (fun k => 2 < k) = [3] := by decide
    simp [set_up_schema, upgrade_functions, upgrade_schema_3, hf]
  | (n + 3) =>
    have hd : (upgrade_functions.drop (n + 3)) = [] := by
      apply List.drop_eq_nil_of_le
      simp [upgrade_functions]
    have hf : ([1, 2, 3] : List Nat).filter (fun k => n + 3 < k) = [] := by
      have h1 : ¬ (n + 3 < 1) := by omega
      have h2 : ¬ (n + 3 < 2) := by omega
      have h3 : ¬ (n + 3 < 3) := by omega
      simp [List.filter, h1, h2, h3]
    simp [set_up_schema, hd, hf]

theorem set_up_schema_version (v : Nat) (tables : List String) (applied : List Nat) :
    (set_up_schema ⟨v, tables, applied⟩).user_version = max v 3 := by
  match v with
  | 0 =>
    simp [set_up_schema, upgrade_functions, upgrade_schema_1, upgrade_schema_2, upgrade_schema_3]
  | 1 =>
    simp [set_up_schema, upgrade_functions, upgrade_schema_2, upgrade_schema_3]
  | 2 =>
    simp [set_up_schema, upgrade_functions, upgrade_schema_3]
  | (n + 3) =>
    have hd : (upgrade_functions.drop (n + 3)) = [] := by
      apply List.drop_eq_nil_of_le
      simp [upgrade_functions]
    simp [set_up_schema, hd]

theorem set_up_schema_up_to_date (v : Nat) (tables : List String) (applied : List Nat)
    (h : 3 ≤ v) : set_up_schema ⟨v, tables, applied⟩ = ⟨v, tables, applied⟩ := by
  have hd : (upgrade_functions.drop v) = [] := by
    apply List.drop_eq_nil_of_le
    simp [upgrade_functions]
    omega
  simp [set_up_schema, hd]

/-- C7: running `set_up_schema` on a database whose stored schema-version
integer is `v` executes exactly the migration steps whose target version
exceeds `v`, in strictly increasing order; each step sets the version to its
target as its last statement; on an up-to-date database (`v ≥ 3`) no
migration runs and the state is unchanged. -/
theorem set_up_schema_spec (v : Nat) (tables : List String) (applied : List Nat) :
    (set_up_schema ⟨v, tables, applied⟩).applied
      = applied ++ ([1, 2, 3] : List Nat).filter (fun k => v < k) ∧
    List.Chain' (· < ·) (([1, 2, 3] : List Nat).filter (fun k => v < k)) ∧
    (set_up_schema ⟨v, tables, applied⟩).user_version = max v 3 ∧
    (3 ≤ v → set_up_schema ⟨v, tables, applied⟩ = ⟨v, tables, applied⟩) ∧
    (∀ t, (upgrade_schema_1 t).user_version = 1) ∧
    (∀ t, (upgrade_schema_2 t).user_version = 2) ∧
    (∀ t, (upgrade_schema_3 t).user_version = 3) := by
  refine ⟨set_up_schema_applied v tables applied, ?_, set_up_schema_version v tables applied,
          set_up_schema_up_to_date v tables applied, fun t => rfl, fun t => rfl, fun t => rfl⟩
  have hp : List.Pairwise (· < ·) ([1, 2, 3] : List Nat) := by decide
  have hs : (([1, 2, 3] : List Nat).filter (fun k => v < k)).Sublist [1, 2, 3] :=
    List.filter_sublist _
  exact List.chain'_iff_pairwise.mpr (hp.sublist hs)

theorem set_up_schema_spec_witness :
    set_up_schema ⟨3, [], []⟩ = (⟨3, [], []⟩ : SqliteSchema) :=
  (set_up_schema_spec 3 [] []).2.2.2.1 (by decide)

theorem setAdd_mem {V : Type} [DecidableEq V] (l : List V) (v : V) : v ∈ setAdd l v := by
  by_cases h : v ∈ l
  · simp only [setAdd, if_pos h]
    exact h
  · simp [setAdd, h]

theorem setAdd_idem {V : Type} [DecidableEq V] (l : List V) (v : V) :
    setAdd (setAdd l v) v = setAdd l v := by
  show (if v ∈ setAdd l v then setAdd l v else setAdd l v ++ [v]) = setAdd l v
  rw [if_pos (setAdd_mem l v)]

theorem dictSetAdd_idem {K V : Type} [DecidableEq K] [DecidableEq V]
    (m : List (K × List V)) (k : K) (v : V) :
    dictSetAdd (dictSetAdd m k v) k v = dictSetAdd m k v := by
  induction m with
  | nil => simp [dictSetAdd, setAdd]
  | cons hd tl ih =>
    obtain ⟨k', vs⟩ := hd
    by_cases h : k = k'
    · simp [dictSetAdd, h, setAdd_idem]
    · simp [dictSetAdd, h, ih]

theorem mem_add_user_idem (s : MemoryStore) (u : UserId) (p : PollId) :
    MemoryStore.add_user_to_game (s.add_user_to_game u p).2 u p = s.add_user_to_game u p := by
  unfold MemoryStore.add_user_to_game
  cases hg : s.get_game p with
  | error e => simp [hg]
  | ok game =>
    have hg' : MemoryStore.get_game
        { s with game_users := dictSetAdd s.game_users game u,
                 user_games := dictSetAdd s.user_games u game } p = .ok game := hg
    simp [hg, hg', dictSetAdd_idem]

/-- C4: for every backend, adding the same user to the same game twice
yields the same participant set as adding once: the in-memory and snapshot
backends reach the very same state (so `get_users` agrees), and in the
relational backend the `get_users` result has the same set of users
(the `participant` table itself gains a duplicate row). -/
theorem add_user_to_game_idempotent (s : MemoryStore) (ps : PickleStore) (db : SqliteDB)
    (u : UserId) (p : PollId) :
    MemoryStore.add_user_to_game (s.add_user_to_game u p).2 u p = s.add_user_to_game u p ∧
    MemoryStore.get_users (MemoryStore.add_user_to_game (s.add_user_to_game u p).2 u p).2 p
      = MemoryStore.get_users (s.add_user_to_game u p).2 p ∧
    PickleStore.add_user_to_game (ps.add_user_to_game u p).2 u p = ps.add_user_to_game u p ∧
    (((db.add_user_to_game u p).add_user_to_game u p).get_users p).toFinset
      = ((db.add_user_to_game u p).get_users p).toFinset := by
  refine ⟨mem_add_user_idem s u p, ?_, ?_, ?_⟩
  · rw [mem_add_user_idem s u p]
  · simp [PickleStore.add_user_to_game, mem_add_user_idem ps.mem u p]
  · simp [SqliteDB.add_user_to_game, SqliteDB.get_users, List.filter_append,
          List.toFinset_append, Finset.union_assoc]

def gameX : Game := Game.mk "Xmas" 100

/-- A memory-store state holding one game with poll id `p1`, leader 9 and an
empty participant set. -/
def memNoMembers : MemoryStore :=
  { group_games := [(100, [gameX])], user_games := [], game_users := [],
    pairings := [], polls := [(gameX, "p1")], leaders := [(gameX, 9)] }

/-- C5 counterexample: in the in-memory backend, removing a user who is not
a member of the game raises `KeyError` (Python `set.remove`), contradicting
the claim that removal of a non-member never raises an error to the caller
in every backend. -/
theorem remove_nonmember_raises :
    (memNoMembers.remove_user_from_game 7 "p1").1 = some StoreErr.keyError := by decide

/-- C5 (amended): removing a non-member is a silent no-op in the relational
backend (the DELETE matches no row and the state is unchanged), while the
in-memory backend raises `KeyError` and leaves the state unchanged. -/
theorem remove_nonmember_spec (db : SqliteDB) (s : MemoryStore) (u : UserId) (p : PollId)
    (game : Game) (hdb : (p, u) ∉ db.participant)
    (hmem : s.get_game p = .ok game) (hnm : u ∉ lookupD s.game_users game []) :
    db.remove_user_from_game u p = db ∧
    s.remove_user_from_game u p = (some StoreErr.keyError, s) := by
  constructor
  · unfold SqliteDB.remove_user_from_game
    have hf : db.participant.filter (fun pr => ¬ (pr.1 = p ∧ pr.2 = u)) = db.participant := by
      apply List.filter_eq_self.mpr
      intro a ha
      simp only [Bool.not_eq_true', decide_eq_false_iff_not, not_and, decide_eq_true_eq]
      intro h1 h2
      exact hdb (by rw [← h1, ← h2]; exact ha)
    rw [hf]
  · unfold MemoryStore.remove_user_from_game
    rw [hmem]
    simp [hnm]

theorem remove_nonmember_spec_witness :
    memNoMembers.remove_user_from_game 7 "p1" = (some StoreErr.keyError, memNoMembers) :=
  (remove_nonmember_spec ⟨[], [("q", 3)], []⟩ memNoMembers 7 "p1" gameX
    (by decide) rfl (by decide)).2

/-- C6 counterexample: in the in-memory backend, `get_game` on a poll id for
which no game was created raises `KeyError` (bidict subscripting) instead of
returning an empty optional result. -/
theorem get_game_unknown_raises :
    MemoryStore.empty.get_game "p1" = .error StoreErr.keyError := rfl

/-- C6 (amended): `get_game` on an unknown poll id returns `None` in the
relational backend, but raises `KeyError` in the in-memory backend. -/
theorem get_game_unknown_spec (db : SqliteDB) (s : MemoryStore) (p : PollId)
    (hdb : ∀ r ∈ db.game, r.poll_id ≠ p) (hs : ∀ gp ∈ s.polls, gp.2 ≠ p) :
    db.get_game p = none ∧ s.get_game p = .error StoreErr.keyError := by
  constructor
  · unfold SqliteDB.get_game
    rw [List.find?_eq_none.mpr]
    · rfl
    · intro r hr
      simpa using hdb r hr
  · unfold MemoryStore.get_game
    rw [List.find?_eq_none.mpr]
    intro gp hgp
    simpa using hs gp hgp

theorem get_game_unknown_spec_witness :
    SqliteDB.empty.get_game "p1" = none :=
  (get_game_unknown_spec SqliteDB.empty MemoryStore.empty "p1" (by simp [SqliteDB.empty])
    (by simp [MemoryStore.empty])).1

theorem le_foldr_max (l : List Nat) (x : Nat) (hx : x ∈ l) : x ≤ l.foldr max 0 := by
  induction l with
  | nil => cases hx
  | cons a t ih =>
    rcases List.mem_cons.mp hx with h | h
    · subst h; exact le_max_left _ _
    · exact le_trans (ih h) (le_max_right _ _)

theorem foldr_max_append (a b : List Nat) :
    (a ++ b).foldr max 0 = max (a.foldr max 0) (b.foldr max 0) := by
  induction a with
  | nil => simp
  | cons x t ih => simp [ih, max_assoc]

theorem foldr_max_const (l : List Nat) (c : Nat) (h : ∀ x ∈ l, x = c) (hne : l ≠ []) :
    l.foldr max 0 = c := by
  induction l with
  | nil => exact absurd rfl hne
  | cons a t ih =>
    rcases Decidable.em (t = []) with ht | ht
    · subst ht
      simp [h a (by simp)]
    · have ha := h a (by simp)
      have := ih (fun x hx => h x (List.mem_cons_of_mem _ hx)) ht
      simp [this, ha]

theorem le_maxReshuffle (rows : List PairingRow) (poll : PollId) (r : PairingRow)
    (hr : r ∈ rows) (hp : r.poll_id = poll) : r.reshuffle ≤ maxReshuffle rows poll := by
  apply le_foldr_max
  exact List.mem_map_of_mem _ (List.mem_filter.mpr ⟨hr, by simp [hp]⟩)

theorem batchConflict_eq_false (old batch : List PairingRow)
    (h2 : ∀ r0 ∈ old, ∀ r ∈ batch, rowConflict r0 r = false)
    (hp : batch.Pairwise (fun a b => rowConflict a b = false)) :
    batchConflict old batch = false := by
  induction batch generalizing old with
  | nil => rfl
  | cons r rest ih =>
    simp only [batchConflict, Bool.or_eq_false_iff]
    constructor
    · rw [List.any_eq_false]
      intro x hx
      simp [h2 x hx r (by simp)]
    · apply ih
      · intro r0 hr0 r' hr'
        rcases List.mem_append.mp hr0 with h | h
        · exact h2 r0 h r' (List.mem_cons_of_mem _ hr')
        · rw [List.mem_singleton] at h
          subst h
          exact (List.pairwise_cons.mp hp).1 r' hr'
      · exact (List.pairwise_cons.mp hp).2

/-- The batch of rows `save_pairings` inserts for one call. -/
def pairingBatch (poll : PollId) (gen : Nat) (pairings : Pairings) : List PairingRow :=
  pairings.map (fun pr => PairingRow.mk poll gen pr.1 pr.2)

theorem save_pairings_ok (db : SqliteDB) (poll : PollId) (pairings : Pairings)
    (hs : (pairings.map Prod.fst).Nodup) (hr : (pairings.map Prod.snd).Nodup) :
    db.save_pairings poll pairings
      = (none,
         { db with
             pairing := db.pairing
               ++ pairingBatch poll (maxReshuffle db.pairing poll + 1) pairings }) := by
  have hbc : batchConflict db.pairing
      (pairingBatch poll (maxReshuffle db.pairing poll + 1) pairings) = false := by
    apply batchConflict_eq_false
    · intro r0 hr0 r hrb
      simp only [pairingBatch, List.mem_map] at hrb
      obtain ⟨pr, hpr, rfl⟩ := hrb
      simp only [rowConflict, decide_eq_false_iff_not, not_and]
      intro hpoll hgen
      have := le_maxReshuffle db.pairing poll r0 hr0 hpoll
      omega
    · have hs' : pairings.Pairwise (fun a b => a.1 ≠ b.1) := List.pairwise_map.mp hs
      have hr' : pairings.Pairwise (fun a b => a.2 ≠ b.2) := List.pairwise_map.mp hr
      rw [pairingBatch, List.pairwise_map]
      apply (hs'.and hr').imp
      intro a b hab
      simp only [rowConflict, decide_eq_false_iff_not, not_and]
      intro _ _
      rintro (h | h)
      · exact hab.1 h
      · exact hab.2 h
  show (if batchConflict db.pairing
            (pairingBatch poll (maxReshuffle db.pairing poll + 1) pairings) = true
        then (some StoreErr.integrityError, db)
        else (none,
              { db with
                  pairing := db.pairing
                    ++ pairingBatch poll (maxReshuffle db.pairing poll + 1) pairings }))
      = (none,
         { db with
             pairing := db.pairing
               ++ pairingBatch poll (maxReshuffle db.pairing poll + 1) pairings })
  rw [hbc]
  simp

theorem maxReshuffle_append_batch (old : List PairingRow) (poll : PollId) (gen : Nat)
    (pairings : Pairings) (hne : pairings ≠ []) (hg : maxReshuffle old poll ≤ gen) :
    maxReshuffle (old ++ pairingBatch poll gen pairings) poll = gen := by
  unfold maxReshuffle at *
  rw [List.filter_append, List.map_append, foldr_max_append]
  have hbatch : ((pairingBatch poll gen pairings).filter
      (fun r => r.poll_id = poll)).map PairingRow.reshuffle
        = (pairingBatch poll gen pairings).map PairingRow.reshuffle := by
    congr 1
    apply List.filter_eq_self.mpr
    intro r hrb
    simp only [pairingBatch, List.mem_map] at hrb
    obtain ⟨pr, hpr, rfl⟩ := hrb
    simp
  rw [hbatch]
  have hconst : ((pairingBatch poll gen pairings).map PairingRow.reshuffle).foldr max 0 = gen := by
    apply foldr_max_const
    · intro x hx
      simp only [pairingBatch, List.map_map, List.mem_map] at hx
      obtain ⟨pr, hpr, rfl⟩ := hx
      rfl
    · simp [pairingBatch, hne]
  rw [hconst]
  omega

theorem map_pair_eta (l : Pairings) : l.map (fun pr => (pr.1, pr.2)) = l := by
  induction l with
  | nil => rfl
  | cons a t ih => simp [ih]

theorem get_game_pairings_append_batch (old : List PairingRow) (poll : PollId) (gen : Nat)
    (pairings : Pairings) (hne : pairings ≠ []) (hg : maxReshuffle old poll < gen) :
    SqliteDB.get_game_pairings ⟨[], [], old ++ pairingBatch poll gen pairings⟩ poll
      = some pairings ∧
    ∀ db : SqliteDB, db.pairing = old ++ pairingBatch poll gen pairings →
      db.get_game_pairings poll = some pairings := by
  have hmax : maxReshuffle (old ++ pairingBatch poll gen pairings) poll = gen :=
    maxReshuffle_append_batch old poll gen pairings hne (le_of_lt hg)
  have hfilter : (old ++ pairingBatch poll gen pairings).filter
      (fun r => r.poll_id = poll ∧ r.reshuffle = gen) = pairingBatch poll gen pairings := by
    rw [List.filter_append]
    have hold : old.filter (fun r => r.poll_id = poll ∧ r.reshuffle = gen) = [] := by
      apply List.filter_eq_nil_iff.mpr
      intro r hrold
      simp only [decide_eq_true_eq, not_and]
      intro hpoll hgen
      have := le_maxReshuffle old poll r hrold hpoll
      omega
    have hbatch : (pairingBatch poll gen pairings).filter
        (fun r => r.poll_id = poll ∧ r.reshuffle = gen) = pairingBatch poll gen pairings := by
      apply List.filter_eq_self.mpr
      intro r hrb
      simp only [pairingBatch, List.mem_map] at hrb
      obtain ⟨pr, hpr, rfl⟩ := hrb
      simp
    rw [hold, hbatch, List.nil_append]
  have main : ∀ db : SqliteDB, db.pairing = old ++ pairingBatch poll gen pairings →
      db.get_game_pairings poll = some pairings := by
    intro db hdb
    unfold SqliteDB.get_game_pairings
    rw [hdb, hmax, hfilter]
    have hne' : (pairingBatch poll gen pairings).isEmpty = false := by
      cases pairings with
      | nil => exact absurd rfl hne
      | cons a t => rfl
    rw [if_neg (by simp [hne'])]
    congr 1
    simp only [pairingBatch, List.map_map]
    exact map_pair_eta pairings
  exact ⟨main _ rfl, main⟩

/-- C3: in the relational backend a successful `save_pairings` stores the
mapping at generation `max(existing generations) + 1` while keeping every
earlier row, `get_game_pairings` immediately afterwards returns exactly the
saved mapping, and after a second save for the same poll it returns only the
second mapping while the first generation's rows are still in the table. -/
theorem sqlite_save_pairings_generations (db : SqliteDB) (poll : PollId) (p1 p2 : Pairings)
    (h1ne : p1 ≠ []) (h1s : (p1.map Prod.fst).Nodup) (h1r : (p1.map Prod.snd).Nodup)
    (h2ne : p2 ≠ []) (h2s : (p2.map Prod.fst).Nodup) (h2r : (p2.map Prod.snd).Nodup) :
    (db.save_pairings poll p1).1 = none ∧
    ((db.save_pairings poll p1).2).pairing
      = db.pairing ++ pairingBatch poll (maxReshuffle db.pairing poll + 1) p1 ∧
    ((db.save_pairings poll p1).2).get_game_pairings poll = some p1 ∧
    (((db.save_pairings poll p1).2).save_pairings poll p2).1 = none ∧
    ((((db.save_pairings poll p1).2).save_pairings poll p2).2).get_game_pairings poll
      = some p2 ∧
    ((((db.save_pairings poll p1).2).save_pairings poll p2).2).pairing
      = (db.pairing ++ pairingBatch poll (maxReshuffle db.pairing poll + 1) p1)
          ++ pairingBatch poll (maxReshuffle db.pairing poll + 1 + 1) p2 := by
  have e1 := save_pairings_ok db poll p1 h1s h1r
  have hpair1 : ((db.save_pairings poll p1).2).pairing
      = db.pairing ++ pairingBatch poll (maxReshuffle db.pairing poll + 1) p1 := by
    rw [e1]
  have hmax1 : maxReshuffle ((db.save_pairings poll p1).2).pairing poll
      = maxReshuffle db.pairing poll + 1 := by
    rw [hpair1]
    exact maxReshuffle_append_batch db.pairing poll _ p1 h1ne (by omega)
  have e2 := save_pairings_ok ((db.save_pairings poll p1).2) poll p2 h2s h2r
  rw [hmax1] at e2
  have hpair2 : ((((db.save_pairings poll p1).2).save_pairings poll p2).2).pairing
      = ((db.save_pairings poll p1).2).pairing
          ++ pairingBatch poll (maxReshuffle db.pairing poll + 1 + 1) p2 := by
    rw [e2]
  refine ⟨by rw [e1], hpair1, ?_, by rw [e2], ?_, by rw [hpair2, hpair1]⟩
  · exact (get_game_pairings_append_batch db.pairing poll _ p1 h1ne (by omega)).2 _ hpair1
  · exact (get_game_pairings_append_batch ((db.save_pairings poll p1).2).pairing poll _ p2 h2ne
      (by rw [hmax1]; omega)).2 _ hpair2

/-- A sqlite state with one game under poll id `p1` and participants 1, 2. -/
def dbTwoUsers : SqliteDB :=
  ⟨[⟨"p1", "Xmas", 100, 9⟩], [("p1", 1), ("p1", 2)], []⟩

theorem sqlite_save_pairings_generations_witness :
    ((SqliteDB.empty.save_pairings "p1" [(1, 2), (2, 1)]).2).get_game_pairings "p1"
      = some [(1, 2), (2, 1)] :=
  (sqlite_save_pairings_generations SqliteDB.empty "p1" [(1, 2), (2, 1)] [(2, 1), (1, 2)]
    (by decide) (by decide) (by decide) (by decide) (by decide) (by decide)).2.2.1

/-- C2 counterexample: the relational backend accepts a pairing whose domain
and range are disjoint from the current participant set: the save succeeds
and the mismatched mapping becomes the current pairing, so the claim that
every backend fails such a save with `InvariantViolation` is false. -/
theorem sqlite_save_pairings_no_validation :
    (dbTwoUsers.save_pairings "p1" [(3, 4), (4, 3)]).1 = none ∧
    (dbTwoUsers.get_users "p1").toFinset = ({1, 2} : Finset UserId) ∧
    ((dbTwoUsers.save_pairings "p1" [(3, 4), (4, 3)]).2).get_game_pairings "p1"
      = some [(3, 4), (4, 3)] ∧
    (([(3, 4), (4, 3)] : Pairings).map Prod.fst).toFinset
      ≠ (dbTwoUsers.get_users "p1").toFinset := by
  refine ⟨by decide, by decide, by decide, by decide⟩

/-- C2 (amended): the in-memory and snapshot backends reject a pairing whose
domain or range differs from the current participant set with a failed
assertion and leave the stored pairing unchanged, but the relational backend
performs no participant-set validation at all: the outcome of its
`save_pairings` is entirely independent of the `participant` table. -/
theorem save_pairings_validation (s : MemoryStore) (ps : PickleStore) (p : PollId)
    (prs : Pairings) (game : Game)
    (hg : s.get_game p = .ok game)
    (hbad : (prs.map Prod.fst).toFinset ≠ (lookupD s.game_users game []).toFinset
          ∨ (prs.map Prod.snd).toFinset ≠ (lookupD s.game_users game []).toFinset)
    (hps : ps.mem = s) :
    s.save_pairings p prs = (some StoreErr.assertError, s) ∧
    ps.save_pairings p prs = (some StoreErr.assertError, ps) ∧
    ∀ (db : SqliteDB) (l : List (PollId × UserId)) (poll : PollId) (qrs : Pairings),
      (SqliteDB.save_pairings { db with participant := l } poll qrs).1
        = (db.save_pairings poll qrs).1 := by
  subst hps
  have hmem : ps.mem.save_pairings p prs = (some StoreErr.assertError, ps.mem) := by
    simp only [MemoryStore.save_pairings, hg]
    by_cases h1 : game ∈ lookupD ps.mem.group_games game.group_id []
    · have h2 : ¬((prs.map Prod.fst).toFinset = (prs.map Prod.snd).toFinset ∧
          (prs.map Prod.snd).toFinset = (lookupD ps.mem.game_users game []).toFinset) := by
        rintro ⟨hb1, hb2⟩
        rcases hbad with h | h
        · exact h (hb1.trans hb2)
        · exact h hb2
      simp [h1, h2]
    · simp [h1]
  refine ⟨hmem, ?_, ?_⟩
  · show (let r := ps.mem.save_pairings p prs; ((r.1, { ps with mem := r.2 }) :
        Option StoreErr × PickleStore)) = (some StoreErr.assertError, ps)
    rw [hmem]
  · intro db l poll qrs
    simp only [SqliteDB.save_pairings]
    by_cases hb : batchConflict db.pairing
        (qrs.map (fun pr => PairingRow.mk poll (maxReshuffle db.pairing poll + 1) pr.1 pr.2))
          = true
    · simp [hb]
    · simp [hb]

/-- A memory-store state with one game under poll id `p1` whose participant
set is exactly the users 1 and 2. -/
def memTwoUsers : MemoryStore :=
  { group_games := [(100, [gameX])], user_games := [(1, [gameX]), (2, [gameX])],
    game_users := [(gameX, [1, 2])], pairings := [], polls := [(gameX, "p1")],
    leaders := [(gameX, 9)] }

theorem save_pairings_validation_witness :
    memTwoUsers.save_pairings "p1" [(3, 4), (4, 3)] = (some StoreErr.assertError, memTwoUsers) :=
  (save_pairings_validation memTwoUsers ⟨memTwoUsers, "f"⟩ "p1" [(3, 4), (4, 3)] gameX
    rfl (by decide) rfl).1

theorem decGame_encGame (g : Game) : Pickle.decGame (Pickle.encGame g) = some g := by
  cases g
  rfl

theorem decProd_encProd {α β : Type} (F : PickleVal → Option α) (f : α → PickleVal)
    (G : PickleVal → Option β) (g : β → PickleVal)
    (hf : ∀ a, F (f a) = some a) (hg : ∀ b, G (g b) = some b) (p : α × β) :
    Pickle.decProd F G (Pickle.encProd f g p) = some p := by
  obtain ⟨a, b⟩ := p
  show Pickle.decProd F G (.pair (f a) (g b)) = some (a, b)
  simp [Pickle.decProd, hf a, hg b]

theorem decList_encList {α : Type} (F : PickleVal → Option α) (f : α → PickleVal)
    (hf : ∀ a, F (f a) = some a) (l : List α) :
    Pickle.decList F (Pickle.encList f l) = some l := by
  induction l with
  | nil => rfl
  | cons a t ih =>
    have ih' : (t.map f).mapM F = some t := ih
    show ((a :: t).map f).mapM F = some (a :: t)
    rw [List.map_cons, List.mapM_cons, hf a, ih']
    rfl

theorem unpickle_pickle (s : MemoryStore) : Pickle.unpickle (Pickle.pickle s) = some s := by
  have hInt : ∀ i : Int, Pickle.decInt (Pickle.encInt i) = some i := fun i => rfl
  have hNat : ∀ n : Nat, Pickle.decNat (Pickle.encNat n) = some n := fun n => rfl
  have hStr : ∀ x : String, Pickle.decStr (Pickle.encStr x) = some x := fun x => rfl
  obtain ⟨f1, f2, f3, f4, f5, f6⟩ := s
  have e1 : Pickle.decList (Pickle.decProd Pickle.decInt (Pickle.decList Pickle.decGame))
      (Pickle.encList (Pickle.encProd Pickle.encInt (Pickle.encList Pickle.encGame)) f1)
        = some f1 :=
    decList_encList _ _
      (fun a => decProd_encProd _ _ _ _ hInt (decList_encList _ _ decGame_encGame) a) f1
  have e2 : Pickle.decList (Pickle.decProd Pickle.decNat (Pickle.decList Pickle.decGame))
      (Pickle.encList (Pickle.encProd Pickle.encNat (Pickle.encList Pickle.encGame)) f2)
        = some f2 :=
    decList_encList _ _
      (fun a => decProd_encProd _ _ _ _ hNat (decList_encList _ _ decGame_encGame) a) f2
  have e3 : Pickle.decList (Pickle.decProd Pickle.decGame (Pickle.decList Pickle.decNat))
      (Pickle.encList (Pickle.encProd Pickle.encGame (Pickle.encList Pickle.encNat)) f3)
        = some f3 :=
    decList_encList _ _
      (fun a => decProd_encProd _ _ _ _ decGame_encGame (decList_encList _ _ hNat) a) f3
  have e4 : Pickle.decList (Pickle.decProd Pickle.decGame
        (Pickle.decList (Pickle.decProd Pickle.decNat Pickle.decNat)))
      (Pickle.encList (Pickle.encProd Pickle.encGame
        (Pickle.encList (Pickle.encProd Pickle.encNat Pickle.encNat))) f4) = some f4 :=
    decList_encList _ _
      (fun a => decProd_encProd _ _ _ _ decGame_encGame
        (decList_encList _ _ (fun b => decProd_encProd _ _ _ _ hNat hNat b)) a) f4
  have e5 : Pickle.decList (Pickle.decProd Pickle.decGame Pickle.decStr)
      (Pickle.encList (Pickle.encProd Pickle.encGame Pickle.encStr) f5) = some f5 :=
    decList_encList _ _ (fun a => decProd_encProd _ _ _ _ decGame_encGame hStr a) f5
  have e6 : Pickle.decList (Pickle.decProd Pickle.decGame Pickle.decNat)
      (Pickle.encList (Pickle.encProd Pickle.encGame Pickle.encNat) f6) = some f6 :=
    decList_encList _ _ (fun a => decProd_encProd _ _ _ _ decGame_encGame hNat a) f6
  show Pickle.unpickle (Pickle.pickle ⟨f1, f2, f3, f4, f5, f6⟩)
      = some (⟨f1, f2, f3, f4, f5, f6⟩ : MemoryStore)
  simp only [Pickle.pickle, Pickle.unpickle, e1, e2, e3, e4, e5, e6]

/-- C8: restoring the snapshot backend from a serialized snapshot reproduces
the very same store state, so every backend-visible query returns the same
result on the restored store as on the original; starting with no snapshot
file produces the empty store. -/
theorem pickle_roundtrip_spec :
    (∀ s : MemoryStore, PickleStore.create (some (Pickle.pickle s)) = some s) ∧
    PickleStore.create none = some MemoryStore.empty ∧
    (∀ (s : MemoryStore) (p : PollId) (u : UserId),
      (PickleStore.create (some (Pickle.pickle s))).map (fun t => t.get_game p)
        = some (s.get_game p) ∧
      (PickleStore.create (some (Pickle.pickle s))).map (fun t => t.get_users p)
        = some (s.get_users p) ∧
      (PickleStore.create (some (Pickle.pickle s))).map (fun t => t.get_game_pairings p)
        = some (s.get_game_pairings p) ∧
      (PickleStore.create (some (Pickle.pickle s))).map (fun t => t.get_pairings u)
        = some (s.get_pairings u)) := by
  have hrt : ∀ s : MemoryStore, PickleStore.create (some (Pickle.pickle s)) = some s :=
    fun s => unpickle_pickle s
  refine ⟨hrt, rfl, ?_⟩
  intro s p u
  rw [hrt s]
  exact ⟨rfl, rfl, rfl, rfl⟩

/-! One operation sequence, run against the in-memory backend and against
the relational backend: create the game `Xmas` in group 100 under poll id
`p1`, add users 1 and 2, save the pairing `[(1, 2), (2, 1)]`, then remove
user 1. -/

def grpG : Group := ⟨100, "G"⟩

def memS1 : MemoryStore := (MemoryStore.empty.create_game "Xmas" grpG "p1" 9).2
def memS2 : MemoryStore := (memS1.add_user_to_game 1 "p1").2
def memS3 : MemoryStore := (memS2.add_user_to_game 2 "p1").2
def memS4 : MemoryStore := (memS3.save_pairings "p1" [(1, 2), (2, 1)]).2
def memS5 : MemoryStore := (memS4.remove_user_from_game 1 "p1").2

def dbS1 : SqliteDB := (SqliteDB.empty.create_game "Xmas" grpG "p1" 9).2
def dbS2 : SqliteDB := dbS1.add_user_to_game 1 "p1"
def dbS3 : SqliteDB := dbS2.add_user_to_game 2 "p1"
def dbS4 : SqliteDB := (dbS3.save_pairings "p1" [(1, 2), (2, 1)]).2
def dbS5 : SqliteDB := dbS4.remove_user_from_game 1 "p1"

/-- C10: the in-memory backend returns a pairing through `get_pairings` only
for games the user is currently recorded in (`user_games`); concretely, after
saving a pairing and then removing user 1, the in-memory backend omits the
game for user 1 (while it still returned it before the removal), whereas the
relational backend still returns the saved pairing for user 1. -/
theorem get_pairings_membership (s : MemoryStore) (u : UserId) :
    (∀ pr ∈ s.get_pairings u, pr.1 ∈ lookupD s.user_games u []) ∧
    (memS3.save_pairings "p1" [(1, 2), (2, 1)]).1 = none ∧
    (memS4.remove_user_from_game 1 "p1").1 = none ∧
    memS4.get_pairings 1 = [(gameX, 2)] ∧
    memS5.get_pairings 1 = [] ∧
    dbS5.get_pairings 1 = [(gameX, 2)] := by
  refine ⟨?_, by decide, by decide, by decide, by decide, by decide⟩
  intro pr hpr
  simp only [MemoryStore.get_pairings, List.mem_filterMap] at hpr
  obtain ⟨g, hg, hmap⟩ := hpr
  obtain ⟨r, hx, hb⟩ := Option.map_eq_some'.mp hmap
  subst hb
  exact hg

theorem get_pairings_membership_witness :
    gameX ∈ lookupD memS4.user_games 1 [] :=
  (get_pairings_membership memS4 1).1 (gameX, 2) (by decide)

/-- C9 counterexample: the same operation sequence (create the game, add
users 1 and 2, save the pairing `[(1, 2), (2, 1)]`, remove user 1, then ask
for user 1's pairings) succeeds in both backends yet yields `[]` in the
in-memory reference backend and `[(Game "Xmas" 100, 2)]` in the relational
backend, so the backends do not all satisfy identical semantics. -/
theorem backends_not_equivalent :
    (MemoryStore.empty.create_game "Xmas" grpG "p1" 9).1 = none ∧
    (memS1.add_user_to_game 1 "p1").1 = none ∧
    (memS2.add_user_to_game 2 "p1").1 = none ∧
    (memS3.save_pairings "p1" [(1, 2), (2, 1)]).1 = none ∧
    (memS4.remove_user_from_game 1 "p1").1 = none ∧
    (SqliteDB.empty.create_game "Xmas" grpG "p1" 9).1 = none ∧
    (dbS3.save_pairings "p1" [(1, 2), (2, 1)]).1 = none ∧
    memS5.get_pairings 1 = [] ∧
    dbS5.get_pairings 1 = [(gameX, 2)] ∧
    ([] : List (Game × UserId)) ≠ [(gameX, 2)] := by
  refine ⟨by decide, by decide, by decide, by decide, by decide, by decide, by decide,
          by decide, by decide, by decide⟩

/-- C9 (amended): the snapshot backend inherits every store operation from
the in-memory backend unchanged, so those two satisfy identical semantics;
the relational backend does not satisfy the in-memory reference semantics:
the counterexample operation sequence distinguishes them through
`get_pairings`. -/
theorem snapshot_matches_memory_not_sqlite (ps : PickleStore) (p : PollId) (u : UserId)
    (prs : Pairings) :
    ps.get_game p = ps.mem.get_game p ∧
    ps.get_users p = ps.mem.get_users p ∧
    ps.get_pairings u = ps.mem.get_pairings u ∧
    ps.get_game_pairings p = ps.mem.get_game_pairings p ∧
    (ps.add_user_to_game u p).1 = (ps.mem.add_user_to_game u p).1 ∧
    ((ps.add_user_to_game u p).2).mem = (ps.mem.add_user_to_game u p).2 ∧
    (ps.remove_user_from_game u p).1 = (ps.mem.remove_user_from_game u p).1 ∧
    ((ps.remove_user_from_game u p).2).mem = (ps.mem.remove_user_from_game u p).2 ∧
    (ps.save_pairings p prs).1 = (ps.mem.save_pairings p prs).1 ∧
    ((ps.save_pairings p prs).2).mem = (ps.mem.save_pairings p prs).2 ∧
    memS5.get_pairings 1 ≠ dbS5.get_pairings 1 :=
  ⟨rfl, rfl, rfl, rfl, rfl, rfl, rfl, rfl, rfl, rfl, by decide⟩

end SecretSanta
